import Mathlib

/-! Verification of tavernq4.cpp: `Game::addItemToPlayer`, `operator|`, `operator|=`.

A shallow embedding of `src/src/tavernq4.cpp`.

* `Flag`, `operatorOr`, `operatorOrAssign` embed lines 67-79.
* `addItemToPlayer` embeds lines 102-139.  The coroutine is run to completion:
  every `co_await` is resumed with the value its task produced, so a run is the
  ordered list of the calls it made on other objects (`Call`).
* The functions the method calls but the file does not define
  (`getPlayerByName`, `loadPlayerByName`, `CreateItem`, `isOffline`) are taken
  as parameters (`Collaborators`); the theorems quantify over all of them.

Two points of C++ semantics decide the shape of every run and are embedded as
they are in the language, not as the surrounding comments describe them:

* `std::make_unique<T>(args...)` is `std::unique_ptr<T>(new T(args...))`.  It
  allocates a new `T`, constructed from `args`, and the pointer it returns is
  never empty (a failed allocation throws, which is outside this model).  It
  does not adopt a raw pointer passed as `args`.
* `operator|=` takes `lhs` by value.
-/

namespace Tavern

/-! ## Lines 65-79: flags -/

/-- The enum `Flag : unsigned char` (line 67).  An enumeration with a fixed
underlying type holds every value of that type, so a `Flag` is an 8-bit value. -/
structure Flag where
  val : Nat
  isLt : val < 256
deriving DecidableEq, Repr

/-- Enumerator `NoLimit = 1` (line 67). -/
def Flag.NoLimit : Flag := ⟨1, by decide⟩

/-- The conversion `static_cast<Underlying>(f)` (line 73). -/
def Flag.toUnderlying (f : Flag) : Nat := f.val

/-- The function `operator|` (lines 69-74): the two underlying values are
or-ed and the result is converted back to the 8-bit enum. -/
def operatorOr (lhs rhs : Flag) : Flag :=
  ⟨(lhs.toUnderlying ||| rhs.toUnderlying) % 256, Nat.mod_lt _ (by decide)⟩

/-- Activation frame of `operator|=`: both parameters are declared by value
(line 76), so the frame holds its own copies. -/
structure OrAssignFrame where
  lhs : Flag
  rhs : Flag
deriving DecidableEq, Repr

/-- Body of `operator|=` (lines 77-78) acting on its own frame: assigns
`lhs | rhs` to the parameter `lhs`, then returns `lhs`. -/
def operatorOrAssign_body (f : OrAssignFrame) : OrAssignFrame × Flag :=
  let f1 : OrAssignFrame := { f with lhs := operatorOr f.lhs f.rhs }
  (f1, f1.lhs)

/-- Variables of a caller that evaluates `x |= y`. -/
structure CallerVars where
  x : Flag
  y : Flag
deriving DecidableEq, Repr

/-- The expression `x |= y` at a call site (lines 76-79): the arguments are
copied into a new frame, the body runs on that frame, the frame is dropped at
return.  Yields the caller's variables after the call and the returned value. -/
def operatorOrAssign (c : CallerVars) : CallerVars × Flag :=
  let frame : OrAssignFrame := ⟨c.x, c.y⟩
  let out := operatorOrAssign_body frame
  (c, out.2)

/-- The constant `INDEX_WHEREVER` (line 86): an empty optional index. -/
def INDEX_WHEREVER : Option Nat := none

/-! ## Objects and pointers -/

/-- Identity of a `Player` object.  `resident id` is an object owned by the
directory (the target of a non-null result of `getPlayerByName`).
`made arg` is the object allocated in this method by `new Player(arg)`, where
`arg` is the raw pointer handed to the constructor (`none` is `nullptr`,
`some id` points to resident `id`). -/
inductive PlayerRef where
  | resident (id : Nat)
  | made (arg : Option Nat)
deriving DecidableEq, Repr

/-- A `Player` object as this method sees it: which object it is, and the name
whose stored data `loadPlayerByName` has filled in, if that call succeeded. -/
structure Player where
  ref : PlayerRef
  loadedName : Option String
deriving DecidableEq, Repr

/-- The object `new Player(arg)`: newly allocated, nothing loaded into it. -/
def Player.construct (arg : Option Nat) : Player := ⟨PlayerRef.made arg, none⟩

/-- Identity of an `Item` object.  `factory k` is the object a non-null result
`k` of `Item::CreateItem` points to; `made arg` is the object allocated in this
method by `new Item(arg)` from the raw pointer `arg`. -/
inductive ItemRef where
  | factory (k : Nat)
  | made (arg : Option Nat)
deriving DecidableEq, Repr

/-- The container `player->getInbox()` of a player object. -/
structure Inbox where
  owner : Player
deriving DecidableEq, Repr

/-- A `std::unique_ptr<T>`: `none` is the empty pointer. -/
abbrev UniquePtr (α : Type) := Option α

/-- The library function `std::make_unique<T>(args...)`: owns the newly
allocated object, never empty. -/
def make_unique {α : Type} (obj : α) : UniquePtr α := some obj

/-! ## Lines 102-139: the method -/

/-- Behaviour of the functions the method calls and the file does not define.
A raw pointer result is an `Option` (`none` is `nullptr`). -/
structure Collaborators where
  getPlayerByName : String → Option Nat
  loadPlayerByName : Player → String → Bool
  CreateItem : Nat → Option Nat
  isOffline : Player → Bool

/-- One call made by a run, with its arguments and, for a query, its result. -/
inductive Call where
  | getPlayerByName (name : String) (result : Option Nat)
  | loadPlayerByName (player : Player) (name : String) (result : Bool)
  | CreateItem (itemId : Nat) (result : Option Nat)
  | getInbox (player : Player)
  | internalAddItem (inbox : Inbox) (item : Option ItemRef) (index : Option Nat) (flags : Flag)
  | isOffline (player : Player) (result : Bool)
  | savePlayer (player : Player)
deriving DecidableEq, Repr

/-- Recognises a call of `IOLoginData::loadPlayerByName`. -/
def Call.isLoad : Call → Bool
  | .loadPlayerByName _ _ _ => true
  | _ => false

/-- Recognises a call of `Item::CreateItem`. -/
def Call.isCreate : Call → Bool
  | .CreateItem _ _ => true
  | _ => false

/-- Recognises a call of `internalAddItem`. -/
def Call.isInsert : Call → Bool
  | .internalAddItem _ _ _ _ => true
  | _ => false

/-- Recognises a call of `IOLoginData::savePlayer`. -/
def Call.isSave : Call → Bool
  | .savePlayer _ => true
  | _ => false

/-- The method `Game::addItemToPlayer` (lines 102-139), run to completion; the
result is the list of calls in the order they were made.  `itemId` is the
`std::uint16_t` parameter; it is only passed on, never computed with.
The identifiers `gameContext` and `INDEX_WHEREEVER` of lines 130-131 are read
as the parameter `gameCtx` and the constant `INDEX_WHEREVER`. -/
def addItemToPlayer (gameCtx : Collaborators) (recipient : String) (itemId : Nat) :
    List Call :=
  -- line 108: make_unique<Player>(gameCtx.getPlayerByName(recipient))
  let found := gameCtx.getPlayerByName recipient
  let t1 : List Call := [Call.getPlayerByName recipient found]
  let player0 : UniquePtr Player := make_unique (Player.construct found)
  -- lines 109-118: Sum.inl is the co_return of line 116
  let resolved : List Call ⊕ (Player × List Call) :=
    match player0 with
    | none =>
      -- line 111: player.reset(new Player(nullptr))
      let p : Player := Player.construct none
      -- line 115
      let ok := gameCtx.loadPlayerByName p recipient
      let t2 := t1 ++ [Call.loadPlayerByName p recipient ok]
      if !ok then Sum.inl t2 else Sum.inr ({ p with loadedName := some recipient }, t2)
    | some p => Sum.inr (p, t1)
  match resolved with
  | Sum.inl t => t
  | Sum.inr (player, t2) =>
    -- line 121: make_unique<Item>(Item::CreateItem(itemId))
    let created := gameCtx.CreateItem itemId
    let t3 := t2 ++ [Call.CreateItem itemId created]
    let item0 : UniquePtr ItemRef := make_unique (ItemRef.made created)
    match item0 with
    | none => t3 -- lines 122-123
    | some item =>
      -- lines 130-131: item.release() hands over the raw pointer to the object
      let t4 := t3 ++ [Call.getInbox player,
        Call.internalAddItem ⟨player⟩ (some item) INDEX_WHEREVER Flag.NoLimit]
      -- line 133
      let off := gameCtx.isOffline player
      let t5 := t4 ++ [Call.isOffline player off]
      -- line 136
      if off then t5 ++ [Call.savePlayer player] else t5

/-! ## Concrete collaborators used to evaluate runs -/

/-- Directory holding only "Bob" (resident 7); every load succeeds; the factory
knows only item type 2169 (object 42); every player is online. -/
def bobOnline : Collaborators where
  getPlayerByName := fun name => if name = "Bob" then some 7 else none
  loadPlayerByName := fun _ _ => true
  CreateItem := fun itemId => if itemId = 2169 then some 42 else none
  isOffline := fun _ => false

/-- Empty directory; every load succeeds; the factory knows only item type
3031 (object 43); every player is offline. -/
def anaOffline : Collaborators where
  getPlayerByName := fun _ => none
  loadPlayerByName := fun _ _ => true
  CreateItem := fun itemId => if itemId = 3031 then some 43 else none
  isOffline := fun _ => true

/-- Empty directory; every load fails; the factory knows only item type 3031
(object 43); every player is online. -/
def ghostMissing : Collaborators where
  getPlayerByName := fun _ => none
  loadPlayerByName := fun _ _ => false
  CreateItem := fun itemId => if itemId = 3031 then some 43 else none
  isOffline := fun _ => false

/-- Directory holding only "Bob" (resident 7), who is offline: `isOffline`
answers true for resident 7 and false for every other player object; every load
succeeds; the factory knows only item type 2169 (object 42). -/
def residentOffline : Collaborators where
  getPlayerByName := fun name => if name = "Bob" then some 7 else none
  loadPlayerByName := fun _ _ => true
  CreateItem := fun itemId => if itemId = 2169 then some 42 else none
  isOffline := fun p => decide (p.ref = PlayerRef.resident 7)

/-- Empty directory; every load succeeds and a player is offline exactly when
stored data has been loaded into it; the factory knows only item type 3031
(object 43). -/
def loadedOffline : Collaborators where
  getPlayerByName := fun _ => none
  loadPlayerByName := fun _ _ => true
  CreateItem := fun itemId => if itemId = 3031 then some 43 else none
  isOffline := fun p => p.loadedName.isSome

/-- Directory holding only "Bob" (resident 7), who is online: `isOffline`
answers false for resident 7 and true for every other player object (an object
that never entered the game); every load succeeds; the factory knows only item
type 2169 (object 42). -/
def residentOnline : Collaborators where
  getPlayerByName := fun name => if name = "Bob" then some 7 else none
  loadPlayerByName := fun _ _ => true
  CreateItem := fun itemId => if itemId = 2169 then some 42 else none
  isOffline := fun p => decide (p.ref ≠ PlayerRef.resident 7)

/-! ## Shape of a run -/

/-- Every run has the same shape: the lookup, the factory call, the insertion
into the inbox of the player object built at line 108, the offline query, and a
save exactly when that query answers true.  The branches of lines 109-118 and
122-123 are never entered, because `make_unique` never returns an empty pointer. -/
theorem addItemToPlayer_trace (gameCtx : Collaborators) (recipient : String) (itemId : Nat) :
    addItemToPlayer gameCtx recipient itemId =
      [Call.getPlayerByName recipient (gameCtx.getPlayerByName recipient),
       Call.CreateItem itemId (gameCtx.CreateItem itemId),
       Call.getInbox (Player.construct (gameCtx.getPlayerByName recipient)),
       Call.internalAddItem ⟨Player.construct (gameCtx.getPlayerByName recipient)⟩
         (some (ItemRef.made (gameCtx.CreateItem itemId))) none Flag.NoLimit,
       Call.isOffline (Player.construct (gameCtx.getPlayerByName recipient))
         (gameCtx.isOffline (Player.construct (gameCtx.getPlayerByName recipient)))]
      ++ (if gameCtx.isOffline (Player.construct (gameCtx.getPlayerByName recipient)) = true
          then [Call.savePlayer (Player.construct (gameCtx.getPlayerByName recipient))]
          else []) := by
  simp only [addItemToPlayer, make_unique, INDEX_WHEREVER]
  split <;> simp

/-- Two flags with the same underlying value are the same flag. -/
theorem Flag.eq_of_val_eq {a b : Flag} (h : a.val = b.val) : a = b := by
  cases a; cases b; simp_all

/-- The or of two 8-bit values is an 8-bit value. -/
theorem lor_lt_256 {x y : Nat} (hx : x < 256) (hy : y < 256) : x ||| y < 256 :=
  Nat.or_lt_two_pow (n := 8) hx hy

/-- The underlying value of `operatorOr a b`. -/
theorem operatorOr_val (a b : Flag) : (operatorOr a b).val = a.val ||| b.val := by
  simp only [operatorOr, Flag.toUnderlying]
  exact Nat.mod_eq_of_lt (lor_lt_256 a.isLt b.isLt)

/-! ## The method: claims C1-C8 -/

/-- C1: when `getPlayerByName` finds a resident player, a run makes no call of
`loadPlayerByName` and exactly one call of `internalAddItem`. -/
theorem resident_no_load_one_insert (gameCtx : Collaborators) (recipient : String)
    (itemId pid : Nat) (hit : gameCtx.getPlayerByName recipient = some pid) :
    (addItemToPlayer gameCtx recipient itemId).countP Call.isLoad = 0 ∧
    (addItemToPlayer gameCtx recipient itemId).countP Call.isInsert = 1 := by
  rw [addItemToPlayer_trace, hit]
  constructor <;> split <;> simp [List.countP_cons, Call.isLoad, Call.isInsert]

/-- C1 at a concrete run: "Bob" is resident 7 and receives item type 2169. -/
theorem resident_no_load_one_insert_witness :
    bobOnline.getPlayerByName "Bob" = some 7 ∧
    (addItemToPlayer bobOnline "Bob" 2169).countP Call.isLoad = 0 ∧
    (addItemToPlayer bobOnline "Bob" 2169).countP Call.isInsert = 1 :=
  ⟨by decide, resident_no_load_one_insert bobOnline "Bob" 2169 7 (by decide)⟩

/-- C2 at the input where it fails: "Ana" is not in the directory and every load
would succeed, yet the run makes no call of `loadPlayerByName` at all (the test
of line 109 is on the result of `make_unique`, which is never empty); it goes on
to insert once, into the inbox of the object `Player(nullptr)`. -/
theorem miss_makes_no_load_call :
    anaOffline.getPlayerByName "Ana" = none ∧
    (∀ p name, anaOffline.loadPlayerByName p name = true) ∧
    (addItemToPlayer anaOffline "Ana" 3031).countP Call.isLoad = 0 ∧
    (addItemToPlayer anaOffline "Ana" 3031).countP Call.isInsert = 1 ∧
    Call.internalAddItem ⟨Player.construct none⟩ (some (ItemRef.made (some 43))) none
      Flag.NoLimit ∈ addItemToPlayer anaOffline "Ana" 3031 := by
  refine ⟨by decide, fun _ _ => rfl, by decide, by decide, by decide⟩

/-- C3 at the input where it fails: "Ghost" is not in the directory and every
load would fail, yet the run does not stop at line 116: it makes no load call,
calls `Item::CreateItem` once and `internalAddItem` once. -/
theorem failing_load_still_inserts :
    ghostMissing.getPlayerByName "Ghost" = none ∧
    (∀ p name, ghostMissing.loadPlayerByName p name = false) ∧
    (addItemToPlayer ghostMissing "Ghost" 3031).countP Call.isLoad = 0 ∧
    (addItemToPlayer ghostMissing "Ghost" 3031).countP Call.isCreate = 1 ∧
    (addItemToPlayer ghostMissing "Ghost" 3031).countP Call.isInsert = 1 := by
  refine ⟨by decide, fun _ _ => rfl, by decide, by decide, by decide⟩

/-- C4 at the inputs where it fails: `Item::CreateItem` returns `nullptr` for
item type 1, for a resident recipient ("Bob") and for a missing one ("Ana"), yet
each run calls `internalAddItem` once, with the object `Item(nullptr)` that
`make_unique` allocated; the run for the offline player also saves once. -/
theorem null_item_still_inserted :
    bobOnline.CreateItem 1 = none ∧
    (addItemToPlayer bobOnline "Bob" 1).countP Call.isInsert = 1 ∧
    Call.internalAddItem ⟨Player.construct (some 7)⟩ (some (ItemRef.made none)) none
      Flag.NoLimit ∈ addItemToPlayer bobOnline "Bob" 1 ∧
    anaOffline.CreateItem 1 = none ∧
    (addItemToPlayer anaOffline "Ana" 1).countP Call.isInsert = 1 ∧
    (addItemToPlayer anaOffline "Ana" 1).countP Call.isSave = 1 := by
  refine ⟨by decide, by decide, by decide, by decide, by decide, by decide⟩

/-- C5 at the inputs where it fails.  "Bob" is resident 7 and reports
`isOffline() = true`, yet the run never asks him: line 133 asks the object
`Player(ptr to resident 7)` allocated at line 108, which answers false, and
`savePlayer` is not called.  Likewise for the missing recipient "Ana", whose
load would succeed and whose loaded player would report offline: nothing is
loaded, the object `Player(nullptr)` answers false, and `savePlayer` is not
called. -/
theorem offline_player_not_saved :
    residentOffline.getPlayerByName "Bob" = some 7 ∧
    residentOffline.isOffline ⟨PlayerRef.resident 7, none⟩ = true ∧
    (∀ b, Call.isOffline ⟨PlayerRef.resident 7, none⟩ b ∉
      addItemToPlayer residentOffline "Bob" 2169) ∧
    Call.isOffline (Player.construct (some 7)) false ∈
      addItemToPlayer residentOffline "Bob" 2169 ∧
    (addItemToPlayer residentOffline "Bob" 2169).countP Call.isInsert = 1 ∧
    (addItemToPlayer residentOffline "Bob" 2169).countP Call.isSave = 0 ∧
    loadedOffline.getPlayerByName "Ana" = none ∧
    loadedOffline.loadPlayerByName (Player.construct none) "Ana" = true ∧
    loadedOffline.isOffline ⟨PlayerRef.made none, some "Ana"⟩ = true ∧
    (addItemToPlayer loadedOffline "Ana" 3031).countP Call.isInsert = 1 ∧
    (addItemToPlayer loadedOffline "Ana" 3031).countP Call.isSave = 0 := by
  refine ⟨by decide, by decide, by decide, by decide, by decide, by decide,
    by decide, by decide, by decide, by decide, by decide⟩

/-- C6 at the input where it fails.  "Bob" is resident 7 and reports
`isOffline() = false`, yet the run never asks him: line 133 asks the object
`Player(ptr to resident 7)` allocated at line 108, which answers true, and
`savePlayer` is called once, on that object. -/
theorem online_player_saved :
    residentOnline.getPlayerByName "Bob" = some 7 ∧
    residentOnline.isOffline ⟨PlayerRef.resident 7, none⟩ = false ∧
    (∀ b, Call.isOffline ⟨PlayerRef.resident 7, none⟩ b ∉
      addItemToPlayer residentOnline "Bob" 2169) ∧
    Call.isOffline (Player.construct (some 7)) true ∈
      addItemToPlayer residentOnline "Bob" 2169 ∧
    (addItemToPlayer residentOnline "Bob" 2169).countP Call.isSave = 1 ∧
    (addItemToPlayer residentOnline "Bob" 2169).getLast? =
      some (Call.savePlayer (Player.construct (some 7))) := by
  refine ⟨by decide, by decide, by decide, by decide, by decide, by decide⟩

/-- C7 at an input where it fails: "Bob" is resident 7 and the factory returns
object 42 for item type 2169.  The one `internalAddItem` call of the run has an
absent index and the flag `NoLimit` (underlying value 1), but its container is
the inbox of the object `Player(ptr to resident 7)` allocated at line 108 and
its item is the object `Item(ptr to object 42)` allocated at line 121: no call
puts object 42 into the inbox of resident 7. -/
theorem insert_targets_made_objects :
    bobOnline.getPlayerByName "Bob" = some 7 ∧ bobOnline.CreateItem 2169 = some 42 ∧
    (addItemToPlayer bobOnline "Bob" 2169).filter Call.isInsert =
      [Call.internalAddItem ⟨Player.construct (some 7)⟩ (some (ItemRef.made (some 42)))
        INDEX_WHEREVER Flag.NoLimit] ∧
    INDEX_WHEREVER = none ∧ Flag.NoLimit.val = 1 ∧
    Call.internalAddItem ⟨⟨PlayerRef.resident 7, none⟩⟩ (some (ItemRef.factory 42))
      INDEX_WHEREVER Flag.NoLimit ∉ addItemToPlayer bobOnline "Bob" 2169 := by
  refine ⟨by decide, by decide, by decide, rfl, rfl, by decide⟩

/-- C8: whatever the lookup, the load, the factory and the offline query answer,
a run calls `internalAddItem` at most once and `loadPlayerByName` at most once,
and it calls `loadPlayerByName` zero times when the lookup finds a player. -/
theorem at_most_one_insert_and_load (gameCtx : Collaborators) (recipient : String)
    (itemId : Nat) :
    (addItemToPlayer gameCtx recipient itemId).countP Call.isInsert ≤ 1 ∧
    (addItemToPlayer gameCtx recipient itemId).countP Call.isLoad ≤ 1 ∧
    ((∃ pid, gameCtx.getPlayerByName recipient = some pid) →
      (addItemToPlayer gameCtx recipient itemId).countP Call.isLoad = 0) := by
  rw [addItemToPlayer_trace]
  refine ⟨?_, ?_, fun _ => ?_⟩ <;> split <;>
    simp [List.countP_cons, Call.isLoad, Call.isInsert]

/-- C8 at concrete runs: a resident recipient, a missing one, a failing factory. -/
theorem at_most_one_insert_and_load_witness :
    (∃ pid, bobOnline.getPlayerByName "Bob" = some pid) ∧
    (addItemToPlayer bobOnline "Bob" 2169).countP Call.isLoad = 0 ∧
    (addItemToPlayer ghostMissing "Ghost" 3031).countP Call.isInsert ≤ 1 ∧
    (addItemToPlayer anaOffline "Ana" 1).countP Call.isLoad ≤ 1 :=
  ⟨⟨7, by decide⟩,
   (at_most_one_insert_and_load bobOnline "Bob" 2169).2.2 ⟨7, by decide⟩,
   (at_most_one_insert_and_load ghostMissing "Ghost" 3031).1,
   (at_most_one_insert_and_load anaOffline "Ana" 1).2.1⟩

/-! ## Flags: claims C9 and C10 -/

/-- C9: for all flags `a`, `b`, `c`, the underlying value of `a | b` is the
bitwise or of the two underlying values; `|` is commutative, associative and
idempotent; and `NoLimit | NoLimit = NoLimit`. -/
theorem operatorOr_bitwise (a b c : Flag) :
    (operatorOr a b).val = a.val ||| b.val ∧
    operatorOr a b = operatorOr b a ∧
    operatorOr (operatorOr a b) c = operatorOr a (operatorOr b c) ∧
    operatorOr a a = a ∧
    operatorOr Flag.NoLimit Flag.NoLimit = Flag.NoLimit := by
  refine ⟨operatorOr_val a b, Flag.eq_of_val_eq ?_, Flag.eq_of_val_eq ?_,
    Flag.eq_of_val_eq ?_, by decide⟩
  · rw [operatorOr_val, operatorOr_val, Nat.lor_comm]
  · rw [operatorOr_val, operatorOr_val, operatorOr_val, operatorOr_val, Nat.lor_assoc]
  · rw [operatorOr_val, Nat.or_self]

/-- C10: evaluating `x |= y` returns exactly `x | y` and leaves the caller's
variables as they were: `x` is still the old left operand, not `x | y` (for
`x` of value 4 and `y = NoLimit` the call returns 5 and `x` still holds 4). -/
theorem operatorOrAssign_returns_or_keeps_lhs (a b : Flag) :
    (operatorOrAssign ⟨a, b⟩).2 = operatorOr a b ∧
    (operatorOrAssign ⟨a, b⟩).1.x = a ∧
    (operatorOrAssign ⟨a, b⟩).1 = ⟨a, b⟩ ∧
    (operatorOrAssign ⟨⟨4, by decide⟩, Flag.NoLimit⟩).2.val = 5 ∧
    (operatorOrAssign ⟨⟨4, by decide⟩, Flag.NoLimit⟩).1.x.val = 4 := by
  refine ⟨rfl, rfl, rfl, by decide, by decide⟩

end Tavern
